import Mathlib

/-!
Shallow embedding of `backend/storages.py` (storage registry service).

The module defines pydantic models `Storage` / `S3Storage`, a `StorageOps`
class over a MongoDB collection (`insert_one`, `find`, `find_one`), and three
FastAPI handlers (`GET /storages/`, `GET /storages/{id}`, `POST /storages/`).

Modelling choices:
* The MongoDB collection is a `List StorageDoc` in insertion order;
  `insert_one` appends.  MongoDB generates the `_id` ObjectId of an inserted
  document; the embedding passes the generated id in explicitly (as its
  canonical 24-char lowercase-hex string form) and theorems that need it
  assume the id is a well-formed fresh ObjectId.
* `bson.objectid.ObjectId(uid)` accepts exactly 24-character hex strings
  (case-insensitive) and raises `InvalidId` otherwise; `parseObjectId`
  returns the sequence of hex-digit values, so that two string spellings of
  the same ObjectId parse equal.
* pydantic validation of the request body (`S3Storage`) is `parseS3Storage`:
  `title`, `user` and `endpoint_url` are required fields (no defaults),
  `is_public : Optional[bool]` defaults to `None`.  The UUID4 format check on
  the `user` field is abstracted away (only presence is modelled); no claim
  depends on the format of a supplied `user` value, only on whether the field
  is present and whether its value survives.
-/

namespace Storages

/-- Value of one hex digit, as accepted by `bytes.fromhex` inside
`ObjectId.__init__` (both cases accepted). -/
def hexVal (c : Char) : Option Nat :=
  if '0' ≤ c ∧ c ≤ '9' then some (c.toNat - 48)
  else if 'a' ≤ c ∧ c ≤ 'f' then some (c.toNat - 87)
  else if 'A' ≤ c ∧ c ≤ 'F' then some (c.toNat - 55)
  else none

/-- Hex-decode a character sequence (the `bytes.fromhex` step of
`ObjectId.__init__`), failing on the first non-hex character. -/
def mapHex : List Char → Option (List Nat)
  | [] => some []
  | c :: cs =>
    match hexVal c, mapHex cs with
    | some v, some vs => some (v :: vs)
    | _, _ => none

/-- Model of `bson.objectid.ObjectId(s)` for a string argument: valid iff `s` is a
24-character hex string; the resulting ObjectId value is the sequence of
hex-digit values (so validity and equality are case-insensitive, as for the
real 12-byte ObjectId). Returns `none` where the constructor raises
`InvalidId`. -/
def parseObjectId (s : String) : Option (List Nat) :=
  if s.data.length = 24 then mapHex s.data else none

/-- A string that is a canonical ObjectId spelling: what `str(objectid)`
produces (24 lowercase hex characters).  MongoDB-generated `_id`s have this
form. -/
def isCanonicalObjectId (s : String) : Prop :=
  s.data.length = 24 ∧ ∀ c ∈ s.data, ('0' ≤ c ∧ c ≤ '9') ∨ ('a' ≤ c ∧ c ≤ 'f')

instance (s : String) : Decidable (isCanonicalObjectId s) := by
  unfold isCanonicalObjectId; infer_instance

/-- pydantic model `S3Storage(Storage)`: fields `title : str`,
`user : UUID4` (inherited from `Storage`), `endpoint_url : str`,
`is_public : Optional[bool]`.  The `user` UUID is kept as a string. -/
structure S3Storage where
  title : String
  user : String
  endpoint_url : String
  is_public : Option Bool
deriving Repr, DecidableEq

/-- A JSON request body for `POST /storages/`, before pydantic validation:
each model field either present (`some`) or absent (`none`). -/
structure RawPayload where
  title : Option String
  user : Option String
  endpoint_url : Option String
  is_public : Option Bool
deriving Repr, DecidableEq

/-- pydantic's rejection of a request body (FastAPI turns this into a 422
validation error response). -/
inductive ValidationErr
  | missingField
deriving Repr, DecidableEq

/-- pydantic validation of the `S3Storage` request body: `title`, `user`
and `endpoint_url` are required (they have no defaults in the model), while
`is_public : Optional[bool]` defaults to `None` when absent. -/
def parseS3Storage (raw : RawPayload) : Except ValidationErr S3Storage :=
  match raw.title, raw.user, raw.endpoint_url with
  | some t, some u, some e => .ok ⟨t, u, e, raw.is_public⟩
  | _, _, _ => .error .missingField

/-- A document of the `storages` MongoDB collection: `storage.dict()` plus
the `_id` the database assigned on insertion (kept as its canonical string
spelling). -/
structure StorageDoc where
  _id : String
  title : String
  user : String
  endpoint_url : String
  is_public : Option Bool
deriving Repr, DecidableEq

/-- The `storages` collection, in insertion order. -/
abbrev Coll := List StorageDoc

/-- The document `insert_one(storage.dict())` stores, given the `_id` the
database generates for it. -/
def docOf (newId : String) (s : S3Storage) : StorageDoc :=
  ⟨newId, s.title, s.user, s.endpoint_url, s.is_public⟩

/-- Model of `StorageOps.add_storage`: `self.storages_coll.insert_one(storage.dict())`.
`newId` is the ObjectId the database generates; the result of `insert_one`
carries it as `inserted_id`. -/
def add_storage (coll : Coll) (newId : String) (storage : S3Storage) :
    Coll × String :=
  (coll ++ [docOf newId storage], newId)

/-- Model of `os.path.join(a, b)` on POSIX for two string components:
an absolute second component discards the first; otherwise a `/` separator
is inserted unless the first component is empty or already ends with `/`. -/
def posixJoin2 (a b : String) : String :=
  if b.data.head? = some '/' then b
  else if a.data = [] ∨ a.data.getLast? = some '/' then a ++ b
  else a ++ "/" ++ b

/-- Model of `StorageOps.create_storage_for_user`:
`endpoint_url = os.path.join(endpoint_prefix, str(user.id)) + "/"`, then
`add_storage(S3Storage(endpoint_url=…, is_public=False, user=user.id,
title="default"))`.  `newId` is the ObjectId the database generates for the
inserted document. -/
def create_storage_for_user (coll : Coll) (newId : String)
    ( endpoint_prefix : String) (userId : String) : Coll :=
  let endpoint_url := posixJoin2 endpoint_prefix userId ++ "/"
  let storage : S3Storage :=
    { endpoint_url := endpoint_url, is_public := some false,
      user := userId, title := "default" }
  (add_storage coll newId storage).1

/-- Model of `StorageOps.get_storages`:
`self.storages_coll.find({"user": user.id})` then
`cursor.to_list(length=1000)` — the matching documents in collection order,
truncated to at most 1000. -/
def get_storages (coll : Coll) (userId : String) : List StorageDoc :=
  (coll.filter (fun d => d.user == userId)).take 1000

/-- The error raised by `ObjectId(uid)` inside `StorageOps.get_storage` when
the identifier string is malformed (`bson.errors.InvalidId`). -/
inductive GetErr
  | invalidId
deriving Repr, DecidableEq

/-- Model of `StorageOps.get_storage`:
`self.storages_coll.find_one({"_id": ObjectId(uid), "user": user.id})`.
`ObjectId(uid)` raises for a malformed identifier; otherwise `find_one`
returns the first document whose `_id` equals that ObjectId and whose
`user` equals `user.id`, or `None` when no document matches both. -/
def get_storage (coll : Coll) (uid : String) (userId : String) :
    Except GetErr (Option StorageDoc) :=
  match parseObjectId uid with
  | none => .error .invalidId
  | some oid =>
      .ok (coll.find? (fun d => parseObjectId d._id == some oid && d.user == userId))

/-- One element of the response of `GET /storages/` (and the non-empty
response of `GET /storages/{id}`): exactly the fields `id`, `title`,
`endpoint_url`. -/
structure StorageOut where
  id : String
  title : String
  endpoint_url : String
deriving Repr, DecidableEq

/-- The projection the `GET /storages/` handler applies to each result:
`{"id": str(res["_id"]), "title": res["title"],
"endpoint_url": res["endpoint_url"]}`. -/
def projOut (d : StorageDoc) : StorageOut :=
  ⟨d._id, d.title, d.endpoint_url⟩

/-- The `GET /storages/` handler: `ops.get_storages(user)` projected to
`{id, title, endpoint_url}` per result. -/
def get_storages_handler (coll : Coll) (userId : String) : List StorageOut :=
  (get_storages coll userId).map projOut

/-- The `GET /storages/{id}` handler: `ops.get_storage(uid, user)`; on no
result returns `{}` (modelled `none`), otherwise
`{"id": uid, "title": res["title"], "endpoint_url": res["endpoint_url"]}`
(note: the `id` echoed back is the request's `uid` string). -/
def get_storage_handler (coll : Coll) (uid : String) (userId : String) :
    Except GetErr (Option StorageOut) :=
  match get_storage coll uid userId with
  | .error e => .error e
  | .ok none => .ok none
  | .ok (some d) => .ok (some ⟨uid, d.title, d.endpoint_url⟩)

/-- The `POST /storages/` handler:
`storage.user = user.id; res = await ops.add_storage(storage);
return {"added": str(res.inserted_id)}`.
Returns the updated collection, the payload object as the handler leaves it
(the in-place mutation `storage.user = user.id`), and the `"added"` id. -/
def add_storage_handler (coll : Coll) (newId : String) (storage : S3Storage)
    (userId : String) : Coll × S3Storage × String :=
  let storage2 := { storage with user := userId }
  let res := add_storage coll newId storage2
  (res.1, storage2, res.2)



/-! ## Helper lemmas (shared) -/

/-- Each character of a canonical ObjectId spelling has a hex value. -/
lemma hexVal_isSome_of_canonical {c : Char}
    (h : ('0' ≤ c ∧ c ≤ '9') ∨ ('a' ≤ c ∧ c ≤ 'f')) : (hexVal c).isSome := by
  rcases h with h1 | h2
  · rw [hexVal, if_pos h1]; rfl
  · have hnot : ¬ ('0' ≤ c ∧ c ≤ '9') := by
      rintro ⟨-, hle⟩
      exact absurd (le_trans h2.1 hle) (by decide)
    rw [hexVal, if_neg hnot, if_pos h2]; rfl

/-- Mapping `hexVal` over a list of hex characters succeeds. -/
lemma mapHex_isSome (l : List Char)
    (h : ∀ c ∈ l, (hexVal c).isSome) : (mapHex l).isSome := by
  induction l with
  | nil => rfl
  | cons a l ih =>
    obtain ⟨b, hb⟩ := Option.isSome_iff_exists.mp (h a (List.mem_cons_self a l))
    obtain ⟨bs, hbs⟩ :=
      Option.isSome_iff_exists.mp (ih (fun c hc => h c (List.mem_cons_of_mem a hc)))
    simp [mapHex, hb, hbs]

/-- A canonical ObjectId spelling parses successfully. -/
lemma parseObjectId_isSome_of_canonical {s : String}
    (h : isCanonicalObjectId s) : (parseObjectId s).isSome := by
  rw [parseObjectId, if_pos h.1]
  exact mapHex_isSome _ (fun c hc => hexVal_isSome_of_canonical (h.2 c hc))

/-! ## Claim theorems -/

/-- C1: for every `POST /storages/` call by authenticated user `userId`,
whatever `user` (owner) value the client supplied in the payload, the
document persisted to the collection has `user = userId`: the handler
overwrites the payload's owner field with the caller's identifier before
persisting. -/
theorem addEntry_persists_caller_as_owner (coll : Coll) (newId : String)
    (storage : S3Storage) (userId : String) :
    (add_storage_handler coll newId storage userId).1 =
      coll ++ [⟨newId, storage.title, userId, storage.endpoint_url,
               storage.is_public⟩] := rfl

/-- C10: the `POST /storages/` handler mutates the caller-supplied payload
object in place: afterwards its `user` (owner) field equals the
authenticated user's identifier while `title`, `endpoint_url` and
`is_public` keep their client-supplied values. -/
theorem addEntry_mutates_payload_owner_only (coll : Coll) (newId : String)
    (storage : S3Storage) (userId : String) :
    (add_storage_handler coll newId storage userId).2.1.user = userId ∧
    (add_storage_handler coll newId storage userId).2.1.title = storage.title ∧
    (add_storage_handler coll newId storage userId).2.1.endpoint_url =
      storage.endpoint_url ∧
    (add_storage_handler coll newId storage userId).2.1.is_public =
      storage.is_public :=
  ⟨rfl, rfl, rfl, rfl⟩

/-- C3 counterexample: a payload whose `title` and `endpoint_url` are both
the empty string passes pydantic validation (no `ValidationError`) and the
record IS persisted to the collection — the code performs no non-emptiness
validation, contradicting the claim. -/
theorem addEntry_empty_strings_persisted_cex :
    parseS3Storage ⟨some "", some "00000000-0000-4000-8000-000000000000",
        some "", none⟩ =
      .ok ⟨"", "00000000-0000-4000-8000-000000000000", "", none⟩ ∧
    (add_storage [] "0123456789abcdef01234567"
        ⟨"", "00000000-0000-4000-8000-000000000000", "", none⟩).1 =
      [⟨"0123456789abcdef01234567", "",
        "00000000-0000-4000-8000-000000000000", "", none⟩] :=
  ⟨rfl, rfl⟩

/-- C3 amended: `addEntry` performs no non-emptiness validation: any body
whose required fields (`title`, `user`, `endpoint_url`) are present —
including empty strings — passes pydantic validation and is persisted as
one new record; only a missing required field fails validation. -/
theorem addEntry_no_emptiness_validation (t u e : String) (ip : Option Bool)
    (coll : Coll) (newId : String) :
    parseS3Storage ⟨some t, some u, some e, ip⟩ = .ok ⟨t, u, e, ip⟩ ∧
    (add_storage coll newId ⟨t, u, e, ip⟩).1 = coll ++ [⟨newId, t, u, e, ip⟩] :=
  ⟨rfl, rfl⟩

/-- C8 counterexample: a `POST /storages/` body containing only `title` and
`endpoint_url` (no `user` field) is rejected by pydantic validation — the
`user : UUID4` field of `S3Storage` has no default, so the owner field IS
required from the client, contradicting the claim. -/
theorem post_body_without_owner_rejected_cex :
    parseS3Storage ⟨some "docs", none, some "s3://b/docs/", none⟩ =
      .error .missingField := rfl

/-- C8 amended: a `POST /storages/` body must contain a `user` (owner) field
to pass model validation; whenever one is present its value is ignored — the
handler overwrites it with the authenticated user's identifier before
persisting, so the supplied owner value never reaches the collection. -/
theorem post_owner_required_but_value_ignored (t e uVal userId : String)
    (ip : Option Bool) (coll : Coll) (newId : String) :
    parseS3Storage ⟨some t, some uVal, some e, ip⟩ = .ok ⟨t, uVal, e, ip⟩ ∧
    (add_storage_handler coll newId ⟨t, uVal, e, ip⟩ userId).1 =
      coll ++ [⟨newId, t, userId, e, ip⟩] :=
  ⟨rfl, rfl⟩

/-- C9 counterexample: a payload that omits the `is_public` flag is
persisted with `is_public = none` (JSON `null`), not with the explicit
private value `some false` that `create_storage_for_user` uses — the field
defaults to `None`, not to private. -/
theorem omitted_visibility_persisted_null_cex :
    (add_storage_handler [] "0123456789abcdef01234568"
        ⟨"docs", "00000000-0000-4000-8000-000000000000", "s3://b/", none⟩
        "u1").1 =
      [⟨"0123456789abcdef01234568", "docs", "u1", "s3://b/", none⟩] ∧
    ((none : Option Bool) = some false) = False :=
  ⟨rfl, by simp⟩

/-- C9 amended: a payload omitting the `is_public` flag pydantic-defaults
the field to `None` and the persisted document carries `is_public = none`
(absent/null), which is in particular never the public value `some true`,
but also not the explicit private value `some false`. -/
theorem omitted_visibility_defaults_to_none (t u e : String) (coll : Coll)
    (newId userId : String) :
    parseS3Storage ⟨some t, some u, some e, none⟩ = .ok ⟨t, u, e, none⟩ ∧
    (add_storage_handler coll newId ⟨t, u, e, none⟩ userId).1 =
      coll ++ [⟨newId, t, userId, e, none⟩] ∧
    (∀ d ∈ (add_storage_handler coll newId ⟨t, u, e, none⟩ userId).1.drop
        coll.length, d.is_public ≠ some true) := by
  refine ⟨rfl, rfl, ?_⟩
  intro d hd
  simp [add_storage_handler, add_storage, docOf] at hd
  subst hd
  simp

/-- C9 witness: concrete instantiation of `omitted_visibility_defaults_to_none`
at a payload omitting the flag. -/
theorem omitted_visibility_defaults_to_none_witness :
    parseS3Storage ⟨some "docs", some "00000000-0000-4000-8000-000000000000",
        some "s3://b/", none⟩ =
      .ok ⟨"docs", "00000000-0000-4000-8000-000000000000", "s3://b/", none⟩ ∧
    (⟨"0123456789abcdef01234502", "docs", "u1", "s3://b/", none⟩ :
        StorageDoc).is_public ≠ some true := by
  have h := omitted_visibility_defaults_to_none "docs"
    "00000000-0000-4000-8000-000000000000" "s3://b/" []
    "0123456789abcdef01234502" "u1"
  exact ⟨h.1, h.2.2 _ (by decide)⟩

/-- C7: `getEntry` with an identifier string that is not a syntactically
valid ObjectId fails with the `InvalidId` error — an outcome distinct from
the absent (`ok none`) result used for "not found". -/
theorem getEntry_malformed_id_errors (coll : Coll) (uid userId : String)
    (h : parseObjectId uid = none) :
    get_storage coll uid userId = .error .invalidId ∧
    get_storage coll uid userId ≠ .ok none := by
  have he : get_storage coll uid userId = Except.error GetErr.invalidId := by
    simp only [get_storage, h]
  refine ⟨he, ?_⟩
  rw [he]
  intro hcon
  exact Except.noConfusion hcon

/-- C7 witness: `getEntry("not-a-valid-id", u)` errors rather than
returning absent. -/
theorem getEntry_malformed_id_errors_witness :
    get_storage [] "not-a-valid-id" "u1" = .error .invalidId ∧
    get_storage [] "not-a-valid-id" "u1" ≠ .ok none :=
  getEntry_malformed_id_errors [] "not-a-valid-id" "u1" (by decide)

/-- C6: `listEntries(u)` returns at most 1000 records, and every returned
record is the `{id, title, endpoint_url}` projection (owner and visibility
stripped, by the shape of `StorageOut`) of a collection document owned by
`u` — never an entry owned by any other user. -/
theorem listEntries_scoped_projected_bounded (coll : Coll) (userId : String) :
    (get_storages_handler coll userId).length ≤ 1000 ∧
    ∀ r ∈ get_storages_handler coll userId,
      ∃ d ∈ coll, d.user = userId ∧ r = projOut d := by
  constructor
  · rw [get_storages_handler, List.length_map, get_storages, List.length_take]
    exact min_le_left _ _
  · intro r hr
    rw [get_storages_handler, List.mem_map] at hr
    obtain ⟨d, hd, rfl⟩ := hr
    rw [get_storages] at hd
    have hd2 := List.take_subset _ _ hd
    have hd3 := List.mem_filter.mp hd2
    refine ⟨d, hd3.1, ?_, rfl⟩
    simpa using hd3.2

/-- C6 witness: concrete instantiation of
`listEntries_scoped_projected_bounded` on a one-document collection. -/
theorem listEntries_scoped_projected_bounded_witness :
    (get_storages_handler [⟨"0123456789abcdef01234503", "t", "u1", "e", none⟩]
        "u1").length ≤ 1000 ∧
    ∃ d ∈ [(⟨"0123456789abcdef01234503", "t", "u1", "e", none⟩ : StorageDoc)],
      d.user = "u1" ∧
      (⟨"0123456789abcdef01234503", "t", "e"⟩ : StorageOut) = projOut d := by
  have h := listEntries_scoped_projected_bounded
    [⟨"0123456789abcdef01234503", "t", "u1", "e", none⟩] "u1"
  exact ⟨h.1, h.2 ⟨"0123456789abcdef01234503", "t", "e"⟩ (by decide)⟩

/-- C4 counterexample: for the configured value `"s3://bucket/"` (already
ending in a separator) and user id `"u1"`, `create_storage_for_user`
persists `endpoint_url = "s3://bucket/u1/"`, which differs from the
claimed formula `P + "/" + U.id + "/" = "s3://bucket//u1/"` —
`os.path.join` inserts no extra separator when one is already there. -/
theorem createDefaultEntry_formula_cex :
    create_storage_for_user [] "0123456789abcdef01234504" "s3://bucket/" "u1" =
      [⟨"0123456789abcdef01234504", "default", "u1", "s3://bucket/u1/",
        some false⟩] ∧
    ¬ ("s3://bucket/u1/" = "s3://bucket/" ++ "/" ++ "u1" ++ "/") := by
  exact ⟨by decide, by decide⟩

/-- C4 amended: when the configured value is non-empty, does not already end
in `"/"`, and the user id does not begin with `"/"` (true of every UUID
string), `create_storage_for_user` persists exactly one entry with
`title = "default"`, `is_public = False` (private), `user = U.id`, and
`endpoint_url = P + "/" + U.id + "/"`; for a configured value already ending
in `"/"`, `os.path.join` instead keeps that single separator. -/
theorem createDefaultEntry_appends_default_entry (coll : Coll)
    (newId pfx userId : String)
    (h1 : pfx.data ≠ [])
    (h2 : pfx.data.getLast? ≠ some '/')
    (h3 : userId.data.head? ≠ some '/') :
    create_storage_for_user coll newId pfx userId =
      coll ++ [⟨newId, "default", userId, pfx ++ "/" ++ userId ++ "/",
               some false⟩] := by
  simp only [create_storage_for_user, posixJoin2, add_storage, docOf]
  rw [if_neg h3, if_neg (not_or.mpr ⟨h1, h2⟩)]

/-- C4 witness: the concrete scenario `prefix="s3://bucket"`,
`user id="u1"` yields the default entry with
`endpoint_url = "s3://bucket/u1/"`. -/
theorem createDefaultEntry_appends_default_entry_witness :
    create_storage_for_user [] "0123456789abcdef01234505" "s3://bucket" "u1" =
      [⟨"0123456789abcdef01234505", "default", "u1", "s3://bucket/u1/",
        some false⟩] := by
  have h := createDefaultEntry_appends_default_entry [] "0123456789abcdef01234505"
    "s3://bucket" "u1" (by decide) (by decide) (by decide)
  rw [h]; decide

/-- C2: an entry owned by `u1` is absent for a different caller `u2`
(`getEntry` filters by identifier and owner in the same single `find_one`
query), and the result is the same `ok none` that any identifier absent
from the collection produces — an entry of another user is
indistinguishable from a non-existent one. -/
theorem getEntry_cross_owner_absent (coll : Coll) (d : StorageDoc)
    (u1 u2 : String)
    (hmem : d ∈ coll) (howner : d.user = u1) (hne : u1 ≠ u2)
    (hvalid : (parseObjectId d._id).isSome = true)
    (huniq : ∀ e ∈ coll, parseObjectId e._id = parseObjectId d._id → e = d) :
    get_storage coll d._id u2 = .ok none ∧
    ∀ s : String, (parseObjectId s).isSome = true →
      (∀ e ∈ coll, parseObjectId e._id ≠ parseObjectId s) →
      get_storage coll s u2 = .ok none := by
  constructor
  · obtain ⟨oid, hoid⟩ := Option.isSome_iff_exists.mp hvalid
    simp only [get_storage, hoid]
    refine congrArg Except.ok ?_
    rw [List.find?_eq_none]
    intro e he
    simp only [Bool.and_eq_true, beq_iff_eq, not_and]
    intro heid
    have hed : e = d := huniq e he (by rw [heid, hoid])
    subst hed
    rw [howner]
    exact fun hcon => hne hcon
  · intro s hs hfresh
    obtain ⟨oid, hoid⟩ := Option.isSome_iff_exists.mp hs
    simp only [get_storage, hoid]
    refine congrArg Except.ok ?_
    rw [List.find?_eq_none]
    intro e he
    simp only [Bool.and_eq_true, beq_iff_eq, not_and]
    intro heid
    exact absurd (show parseObjectId e._id = parseObjectId s by
      rw [heid, hoid]) (hfresh e he)

/-- C2 witness: a one-entry collection owned by `"u1"`; for caller `"u2"`
the entry's own id and a fresh id both yield the same `ok none`. -/
theorem getEntry_cross_owner_absent_witness :
    get_storage [⟨"0123456789abcdef01234506", "t", "u1", "e", none⟩]
        "0123456789abcdef01234506" "u2" = .ok none ∧
    get_storage [⟨"0123456789abcdef01234506", "t", "u1", "e", none⟩]
        "ffffffffffffffffffffffff" "u2" = .ok none := by
  have h := getEntry_cross_owner_absent
    [⟨"0123456789abcdef01234506", "t", "u1", "e", none⟩]
    ⟨"0123456789abcdef01234506", "t", "u1", "e", none⟩ "u1" "u2"
    (by decide) rfl (by decide) (by decide) (by decide)
  exact ⟨h.1, h.2 "ffffffffffffffffffffffff" (by decide) (by decide)⟩

/-- C5: `addEntry(P, u)` followed by `getEntry` with the returned identifier
and the same user `u` finds the just-persisted entry, whose `title` and
`endpoint_url` equal the payload's (round trip through the collection). -/
theorem addEntry_getEntry_roundtrip (coll : Coll) (payload : S3Storage)
    (newId userId : String)
    (hcanon : isCanonicalObjectId newId)
    (hfresh : ∀ d ∈ coll, parseObjectId d._id ≠ parseObjectId newId) :
    get_storage (add_storage_handler coll newId payload userId).1
        (add_storage_handler coll newId payload userId).2.2 userId =
      .ok (some ⟨newId, payload.title, userId, payload.endpoint_url,
                payload.is_public⟩) := by
  obtain ⟨oid, hoid⟩ := Option.isSome_iff_exists.mp
    (parseObjectId_isSome_of_canonical hcanon)
  have hcoll : (add_storage_handler coll newId payload userId).1 =
      coll ++ [⟨newId, payload.title, userId, payload.endpoint_url,
               payload.is_public⟩] := rfl
  have hid2 : (add_storage_handler coll newId payload userId).2.2 = newId := rfl
  rw [hcoll, hid2]
  simp only [get_storage, hoid]
  refine congrArg Except.ok ?_
  rw [List.find?_append]
  have hnone : coll.find?
      (fun d => parseObjectId d._id == some oid && d.user == userId) = none := by
    rw [List.find?_eq_none]
    intro e he
    simp only [Bool.and_eq_true, beq_iff_eq, not_and]
    intro heid
    exact absurd (show parseObjectId e._id = parseObjectId newId by
      rw [heid, hoid]) (hfresh e he)
  rw [hnone, Option.none_or]
  apply List.find?_cons_of_pos
  simp [hoid]

/-- C5 witness: concrete round trip through an initially empty collection. -/
theorem addEntry_getEntry_roundtrip_witness :
    get_storage (add_storage_handler [] "0123456789abcdef01234507"
        ⟨"docs", "00000000-0000-4000-8000-000000000000", "s3://b/docs/", none⟩
        "u1").1
      (add_storage_handler [] "0123456789abcdef01234507"
        ⟨"docs", "00000000-0000-4000-8000-000000000000", "s3://b/docs/", none⟩
        "u1").2.2 "u1" =
      .ok (some ⟨"0123456789abcdef01234507", "docs", "u1", "s3://b/docs/",
                none⟩) :=
  addEntry_getEntry_roundtrip []
    ⟨"docs", "00000000-0000-4000-8000-000000000000", "s3://b/docs/", none⟩
    "0123456789abcdef01234507" "u1" (by decide) (by decide)

end Storages
